import Mathlib

/-!
# Verification of the affiliate-mcp catalog/query engine

Shallow embedding of `affiliate_mcp_server.py` and `load_affiliate_db.py`.

Modelling conventions:
* SQLite dynamically-typed column values (`epc_7day`) are a tagged variant
  `SqlVal` (NULL, numeric, text).
* Python floats and SQLite REALs are modelled as `ℚ`; the claims under
  study involve only exact decimal arithmetic.
* A Python expression that raises (`float(...)` on an unparseable string)
  is modelled as `Option`/`Except` with `none`/`.error` meaning "raises".
* The embedding provider is an oracle parameter; `vec_distance_cosine`
  between the query embedding and a stored vector is abstracted as a
  distance assignment `Int → ℚ` keyed by `link_id` (the join key; the
  ingestion invariant makes it 1:1).
* SQL `ORDER BY` is modelled with `List.insertionSort` (a deterministic
  refinement of the unspecified tie order); the properties proved
  (sortedness, length, membership) hold for any `ORDER BY` implementation.
* Rational values are constructed with `Rat.divInt` and integer
  arithmetic so that all definitions evaluate by kernel reduction.
-/

/-- A dynamically-typed SQLite value as stored in the `epc_7day` column:
NULL, a numeric value, or a text value. -/
inductive SqlVal where
  | null : SqlVal
  | num : ℚ → SqlVal
  | str : String → SqlVal
deriving DecidableEq

/-- Numeric value of a run of decimal digit characters. -/
def digitsToNat (ds : List Char) : ℕ :=
  ds.foldl (fun n c => 10 * n + (c.toNat - 48)) 0

/-- ASCII whitespace recognized by SQLite's text-to-number conversion and by
Python's `float()` stripping (space, \t, \n, \v, \f, \r). -/
def isSqlSpace (c : Char) : Bool :=
  (c.toNat = 32) || (c.toNat = 9) || (c.toNat = 10) ||
  (c.toNat = 11) || (c.toNat = 12) || (c.toNat = 13)

/-- Consume an optional leading sign, returning the sign as `±1 : ℤ`. -/
def parseSignInt (cs : List Char) : ℤ × List Char :=
  if cs.head? = some '-' then (-1, cs.tail)
  else if cs.head? = some '+' then (1, cs.tail)
  else (1, cs)

/-- The rational `sgn * intds.fracds * 10 ^ e` denoted by a sign, integer
digits, fraction digits and a decimal exponent. -/
def ratOfDigits (sgn : ℤ) (intds fracds : List Char) (e : ℤ) : ℚ :=
  let n : ℤ := sgn * ((digitsToNat intds : ℤ) * 10 ^ fracds.length + (digitsToNat fracds : ℤ))
  if 0 ≤ e then Rat.divInt (n * 10 ^ e.toNat) (10 ^ fracds.length)
  else Rat.divInt n (10 ^ fracds.length * 10 ^ (-e).toNat)

/-- Exponent part of SQLite's prefix number parse: an optional sign followed
by digits; if no digits follow, the exponent marker contributes 0. -/
def sqliteExp (cs : List Char) : ℤ :=
  let sc := parseSignInt cs
  let ds := sc.2.takeWhile Char.isDigit
  if ds.isEmpty then 0 else sc.1 * (digitsToNat ds : ℤ)

/-- SQLite `CAST(text AS REAL)`: the value of the longest numeric prefix of
the text (after leading whitespace), or `0.0` when the text has no numeric
prefix.  This is the conversion applied by `CAST(a.epc_7day AS REAL)` in
`search_products` (affiliate_mcp_server.py:80), `get_top_products`
(line 161) and `get_product_stats` (line 215). -/
def sqliteCastStr (s : String) : ℚ :=
  let cs := s.toList.dropWhile isSqlSpace
  let sc := parseSignInt cs
  let intds := sc.2.takeWhile Char.isDigit
  let r1 := sc.2.dropWhile Char.isDigit
  let fr := if r1.head? = some '.' then
      (r1.tail.takeWhile Char.isDigit, r1.tail.dropWhile Char.isDigit)
    else ([], r1)
  if intds.isEmpty && fr.1.isEmpty then 0
  else
    let e : ℤ := if fr.2.head? = some 'e' || fr.2.head? = some 'E' then sqliteExp fr.2.tail else 0
    ratOfDigits sc.1 intds fr.1 e

/-- Python `float(s)` on a string: strips ASCII whitespace, then requires the
whole remaining string to be a signed decimal literal with an optional
exponent; `none` models a raised `ValueError`.  (The special values
`inf`/`nan` and underscore digit separators are outside the domain of the
catalog's epc strings and are not modelled.) -/
def pyFloat (s : String) : Option ℚ :=
  let cs := ((s.toList.dropWhile isSqlSpace).reverse.dropWhile isSqlSpace).reverse
  let sc := parseSignInt cs
  let intds := sc.2.takeWhile Char.isDigit
  let r1 := sc.2.dropWhile Char.isDigit
  let fr := if r1.head? = some '.' then
      (r1.tail.takeWhile Char.isDigit, r1.tail.dropWhile Char.isDigit)
    else ([], r1)
  if intds.isEmpty && fr.1.isEmpty then none
  else if fr.2.isEmpty then some (ratOfDigits sc.1 intds fr.1 0)
  else if fr.2.head? = some 'e' || fr.2.head? = some 'E' then
    let sc2 := parseSignInt fr.2.tail
    let eds := sc2.2.takeWhile Char.isDigit
    if eds.isEmpty || !(sc2.2.dropWhile Char.isDigit).isEmpty then none
    else some (ratOfDigits sc.1 intds fr.1 (sc2.1 * (digitsToNat eds : ℤ)))
  else none

/-- Fuel-indexed worker for Python `str.replace`: left-to-right,
non-overlapping replacement of every occurrence of `pat` (non-empty in all
uses) by `rep`. -/
def listReplace (pat rep : List Char) : ℕ → List Char → List Char
  | 0, cs => cs
  | _ + 1, [] => []
  | fuel + 1, c :: cs =>
    if pat.isPrefixOf (c :: cs) then
      rep ++ listReplace pat rep fuel (List.drop (pat.length - 1) cs)
    else c :: listReplace pat rep fuel cs

/-- Python `s.replace(pat, rep)` for non-empty `pat`. -/
def pyReplace (s pat rep : String) : String :=
  String.mk (listReplace pat.toList rep.toList s.toList.length s.toList)

/-- The epc normalization expression of affiliate_mcp_server.py, duplicated
verbatim at line 103 (`search_products`) and line 183 (`get_top_products`):

`float(r[5].replace('$', '').replace(' USD', '')) if r[5] and isinstance(r[5], str) else (float(r[5]) if r[5] else 0.0)`

`none` models a raised `ValueError` from `float()`.  Python truthiness: a
NULL, the empty string and numeric zero are falsy and take the `0.0`
branch. -/
def normalize_epc : SqlVal → Option ℚ
  | SqlVal.null => some 0
  | SqlVal.num q => if q = 0 then some 0 else some q
  | SqlVal.str s =>
    if s = "" then some 0
    else pyFloat (pyReplace (pyReplace s "$" "") " USD" "")

example : normalize_epc (SqlVal.str "$1.23 USD") = some (Rat.divInt 123 100) := by decide
example : normalize_epc (SqlVal.str "4.5") = some (Rat.divInt 9 2) := by decide
example : normalize_epc (SqlVal.str "") = some 0 := by decide
example : normalize_epc SqlVal.null = some 0 := by decide
example : normalize_epc (SqlVal.str "N/A") = none := by decide
example : sqliteCastStr "$2.00 USD" = 0 := by decide
example : sqliteCastStr "1.50" = Rat.divInt 3 2 := by decide
example : sqliteCastStr "2e1" = 20 := by decide
example : Rat.divInt 123 100 = 123 / 100 := by norm_num [Rat.divInt_eq_div]

/-- Subtraction `1 - q` via integer arithmetic (kernel-reducible). -/
def oneSub (q : ℚ) : ℚ := Rat.divInt ((q.den : ℤ) - q.num) q.den

/-- Addition via integer arithmetic (kernel-reducible). -/
def qAdd (a b : ℚ) : ℚ := Rat.divInt (a.num * b.den + b.num * a.den) ((a.den : ℤ) * b.den)

/-- Division `q / n` for a natural `n` via integer arithmetic (kernel-reducible). -/
def qDivNat (q : ℚ) (n : ℕ) : ℚ := Rat.divInt q.num ((q.den : ℤ) * n)

/-- Product `q * 10 ^ k` via integer arithmetic (kernel-reducible). -/
def qMulPow10 (q : ℚ) (k : ℕ) : ℚ := Rat.divInt (q.num * 10 ^ k) q.den

/-- Python's `round()` to an integer: round-half-to-even (banker's
rounding), computed with integer floor division so it evaluates by kernel
reduction. -/
def pyRoundInt (q : ℚ) : ℤ :=
  let f := q.num.fdiv q.den
  let r := q.num - f * q.den
  if 2 * r < (q.den : ℤ) then f
  else if (q.den : ℤ) < 2 * r then f + 1
  else if f % 2 = 0 then f else f + 1

/-- Python `round(q, 3)` (exact rational model of the float rounding). -/
def pyRound3 (q : ℚ) : ℚ := Rat.divInt (pyRoundInt (qMulPow10 q 3)) 1000

/-- Python `round(q, 2)` (exact rational model of the float rounding). -/
def pyRound2 (q : ℚ) : ℚ := Rat.divInt (pyRoundInt (qMulPow10 q 2)) 100

theorem oneSub_eq (q : ℚ) : oneSub q = 1 - q := by
  rw [oneSub, Rat.divInt_eq_div]
  push_cast
  rw [sub_div, Rat.num_div_den, div_self (by positivity : ((q.den : ℚ)) ≠ 0)]

theorem qAdd_eq (a b : ℚ) : qAdd a b = a + b := by
  rw [qAdd, Rat.divInt_eq_div]
  push_cast
  rw [add_div, mul_comm (a.num : ℚ) (b.den : ℚ), mul_comm ((a.den : ℚ)) ((b.den : ℚ))]
  rw [mul_div_mul_left _ _ (by positivity : ((b.den : ℚ)) ≠ 0),
      mul_div_mul_right _ _ (by positivity : ((a.den : ℚ)) ≠ 0)]
  rw [Rat.num_div_den, Rat.num_div_den]

theorem qDivNat_eq (q : ℚ) (n : ℕ) : qDivNat q n = q / n := by
  rw [qDivNat, Rat.divInt_eq_div]
  push_cast
  rw [div_mul_eq_div_div, Rat.num_div_den]

theorem qMulPow10_eq (q : ℚ) (k : ℕ) : qMulPow10 q k = q * 10 ^ k := by
  rw [qMulPow10, Rat.divInt_eq_div]
  push_cast
  rw [mul_comm (q.num : ℚ) _, mul_div_assoc, Rat.num_div_den, mul_comm]

theorem num_fdiv_den (q : ℚ) : q.num.fdiv q.den = ⌊q⌋ := by
  rw [Rat.floor_def]
  exact Int.fdiv_eq_ediv _ (by positivity)

example : pyRound3 (Rat.divInt 12345 10000) = Rat.divInt 1234 1000 := by decide
example : pyRound3 (Rat.divInt 12355 10000) = Rat.divInt 1236 1000 := by decide
example : pyRound2 (Rat.divInt 3 4) = Rat.divInt 3 4 := by decide

/-- Mathematical restatement of `pyRoundInt` in terms of `Int.fract` and
`Int.floor`. -/
def roundHE (q : ℚ) : ℤ :=
  if Int.fract q < 1 / 2 then ⌊q⌋
  else if 1 / 2 < Int.fract q then ⌊q⌋ + 1
  else if ⌊q⌋ % 2 = 0 then ⌊q⌋ else ⌊q⌋ + 1

theorem fract_eq_div (q : ℚ) :
    Int.fract q = ((q.num - ⌊q⌋ * q.den : ℤ) : ℚ) / (q.den : ℚ) := by
  have hd : ((q.den : ℚ)) ≠ 0 := by positivity
  rw [Int.fract]
  push_cast
  rw [sub_div, Rat.num_div_den, mul_div_assoc, div_self hd, mul_one]

theorem pyRoundInt_eq_roundHE (q : ℚ) : pyRoundInt q = roundHE q := by
  have hd : (0 : ℚ) < (q.den : ℚ) := by positivity
  have h1 : (2 * (q.num - ⌊q⌋ * q.den) < (q.den : ℤ)) ↔ Int.fract q < 1 / 2 := by
    rw [fract_eq_div, div_lt_div_iff₀ hd (by norm_num : (0:ℚ) < 2)]
    constructor
    · intro h
      calc ((q.num - ⌊q⌋ * q.den : ℤ) : ℚ) * 2 = ((2 * (q.num - ⌊q⌋ * q.den) : ℤ) : ℚ) := by
            push_cast; ring
        _ < ((q.den : ℤ) : ℚ) := by exact_mod_cast Int.cast_lt.mpr h
        _ = 1 * (q.den : ℚ) := by push_cast; ring
    · intro h
      have h2 : ((2 * (q.num - ⌊q⌋ * q.den) : ℤ) : ℚ) < ((q.den : ℤ) : ℚ) := by
        calc ((2 * (q.num - ⌊q⌋ * q.den) : ℤ) : ℚ)
            = ((q.num - ⌊q⌋ * q.den : ℤ) : ℚ) * 2 := by push_cast; ring
          _ < 1 * (q.den : ℚ) := h
          _ = ((q.den : ℤ) : ℚ) := by rw [one_mul]; norm_cast
      exact_mod_cast h2
  have h2 : ((q.den : ℤ) < 2 * (q.num - ⌊q⌋ * q.den)) ↔ 1 / 2 < Int.fract q := by
    rw [fract_eq_div, div_lt_div_iff₀ (by norm_num : (0:ℚ) < 2) hd]
    constructor
    · intro h
      calc (1 : ℚ) * (q.den : ℚ) = ((q.den : ℤ) : ℚ) := by rw [one_mul]; norm_cast
        _ < ((2 * (q.num - ⌊q⌋ * q.den) : ℤ) : ℚ) := by exact_mod_cast Int.cast_lt.mpr h
        _ = ((q.num - ⌊q⌋ * q.den : ℤ) : ℚ) * 2 := by push_cast; ring
    · intro h
      have h3 : ((q.den : ℤ) : ℚ) < ((2 * (q.num - ⌊q⌋ * q.den) : ℤ) : ℚ) := by
        calc ((q.den : ℤ) : ℚ) = 1 * (q.den : ℚ) := by rw [one_mul]; norm_cast
          _ < ((q.num - ⌊q⌋ * q.den : ℤ) : ℚ) * 2 := h
          _ = ((2 * (q.num - ⌊q⌋ * q.den) : ℤ) : ℚ) := by push_cast; ring
      exact_mod_cast h3
  rw [pyRoundInt, roundHE, num_fdiv_den]
  simp only [h1, h2]

theorem le_roundHE (q : ℚ) : ⌊q⌋ ≤ roundHE q := by
  rw [roundHE]
  split_ifs <;> omega

theorem roundHE_le (q : ℚ) : roundHE q ≤ ⌊q⌋ + 1 := by
  rw [roundHE]
  split_ifs <;> omega

theorem roundHE_mono {a b : ℚ} (h : a ≤ b) : roundHE a ≤ roundHE b := by
  have hf : ⌊a⌋ ≤ ⌊b⌋ := Int.floor_mono h
  by_cases hq : ⌊a⌋ = ⌊b⌋
  · have hfr : Int.fract a ≤ Int.fract b := by
      rw [Int.fract, Int.fract, hq]
      exact sub_le_sub_right h _
    rw [roundHE, roundHE, hq]
    split_ifs <;> first | omega | linarith
  · have hlt : ⌊a⌋ < ⌊b⌋ := lt_of_le_of_ne hf hq
    calc roundHE a ≤ ⌊a⌋ + 1 := roundHE_le a
      _ ≤ ⌊b⌋ := by omega
      _ ≤ roundHE b := le_roundHE b

theorem pyRoundInt_mono {a b : ℚ} (h : a ≤ b) : pyRoundInt a ≤ pyRoundInt b := by
  rw [pyRoundInt_eq_roundHE, pyRoundInt_eq_roundHE]
  exact roundHE_mono h

theorem pyRound3_mono {a b : ℚ} (h : a ≤ b) : pyRound3 a ≤ pyRound3 b := by
  rw [pyRound3, pyRound3, Rat.divInt_eq_div, Rat.divInt_eq_div]
  have hm : pyRoundInt (qMulPow10 a 3) ≤ pyRoundInt (qMulPow10 b 3) := by
    apply pyRoundInt_mono
    rw [qMulPow10_eq, qMulPow10_eq]
    have : (0:ℚ) < 10 ^ 3 := by norm_num
    exact mul_le_mul_of_nonneg_right h (le_of_lt this)
  have hc : ((pyRoundInt (qMulPow10 a 3) : ℚ)) ≤ ((pyRoundInt (qMulPow10 b 3) : ℚ)) := by
    exact_mod_cast hm
  gcongr

/-- A row of the `affiliate_links` table (the columns consulted by the four
tool operations; `load_affiliate_db.py:52-68`). -/
structure AffRow where
  link_id : ℤ
  name : Option String
  description : Option String
  category : Option String
  click_url : Option String
  coupon_code : Option String
  epc_7day : SqlVal
deriving DecidableEq

/-- Arguments of `search_products` (affiliate_mcp_server.py:42-47).
`num_results` is an `ℤ` because SQLite `LIMIT` accepts (and the code does
not reject) negative values. -/
structure SearchArgs where
  query : String
  num_results : ℤ
  min_epc : Option ℚ
  category : Option String
deriving DecidableEq

/-- One formatted result of `search_products`
(affiliate_mcp_server.py:97-107; the display-only `formatted_link` and
`coupon_display` fields are presentation of the same data and omitted). -/
structure ProductResult where
  name : Option String
  description : Option String
  category : Option String
  url : Option String
  coupon : Option String
  epc : ℚ
  relevance : ℚ
deriving DecidableEq

/-- One formatted result of `get_top_products`
(affiliate_mcp_server.py:177-186; no `relevance` field). -/
structure TopResult where
  name : Option String
  description : Option String
  category : Option String
  url : Option String
  coupon : Option String
  epc : ℚ
deriving DecidableEq

/-- Error outcomes of a tool call: embedding-provider failure, a
`ValidationError` (present in the spec's taxonomy; the code has no code
path producing it), or a Python `ValueError` escaping from `float()` during
result formatting. -/
inductive SearchErr where
  | provider : SearchErr
  | validation : SearchErr
  | valueError : SearchErr
deriving DecidableEq

instance {ε α : Type} [DecidableEq ε] [DecidableEq α] : DecidableEq (Except ε α) :=
  fun a b =>
  match a, b with
  | Except.error e, Except.error f =>
    if h : e = f then isTrue (by rw [h])
    else isFalse (by intro hh; cases hh; exact h rfl)
  | Except.error _, Except.ok _ => isFalse (by intro hh; cases hh)
  | Except.ok _, Except.error _ => isFalse (by intro hh; cases hh)
  | Except.ok x, Except.ok y =>
    if h : x = y then isTrue (by rw [h])
    else isFalse (by intro hh; cases hh; exact h rfl)

/-- SQLite `LIMIT n`: a negative `n` means no limit; otherwise at most `n`
rows. -/
def sqlLimit {α : Type} (n : ℤ) (l : List α) : List α :=
  if n < 0 then l else l.take n.toNat

/-- Model of `CAST(a.epc_7day AS REAL)` on a stored value; `none` is SQL NULL
(CAST of NULL is NULL). -/
def castEpcReal : SqlVal → Option ℚ
  | SqlVal.null => none
  | SqlVal.num q => some q
  | SqlVal.str s => some (sqliteCastStr s)

/-- The SQL predicate `CAST(a.epc_7day AS REAL) >= t`
(affiliate_mcp_server.py:80); a NULL comparison is not TRUE, so NULL rows
are filtered out. -/
def minEpcPred (v : SqlVal) (t : ℚ) : Bool :=
  match castEpcReal v with
  | none => false
  | some q => decide (t ≤ q)

/-- Python truthiness of an optional string (`if category:`,
`if min_epc is not None:` is separate): `None` and `""` are falsy. -/
def pyTruthyStr : Option String → Bool
  | none => false
  | some s => decide (s ≠ "")

/-- The SQL predicate `a.category = ?` (exact, case-sensitive match; a
NULL category never matches). -/
def catMatch (rcat : Option String) (cat : Option String) : Bool :=
  match rcat, cat with
  | some rc, some c => decide (rc = c)
  | _, _ => false

/-- The WHERE clause assembled by `search_products`
(affiliate_mcp_server.py:76-88): the epc condition is added when
`min_epc is not None`, the category condition (`a.category = ?`, exact
match, NULL never matches) when `category` is truthy. -/
def passesWhere (args : SearchArgs) (r : AffRow) : Bool :=
  (match args.min_epc with
   | some t => minEpcPred r.epc_7day t
   | none => true)
  && (if pyTruthyStr args.category then catMatch r.category args.category
      else true)

/-- Ascending-distance ordering on joined rows (`ORDER BY distance`,
affiliate_mcp_server.py:90). -/
def distRel (a b : AffRow × ℚ) : Prop := a.2 ≤ b.2

instance : DecidableRel distRel := fun a b => inferInstanceAs (Decidable (a.2 ≤ b.2))

instance : IsTotal (AffRow × ℚ) distRel := ⟨fun a b => le_total a.2 b.2⟩

instance : IsTrans (AffRow × ℚ) distRel := ⟨fun _ _ _ h1 h2 => le_trans h1 h2⟩

/-- The retrieval step of `search_products` (affiliate_mcp_server.py:67-93):
join every catalog row with its distance, apply the WHERE filters, order by
ascending distance, apply `LIMIT num_results`.  `d` assigns the
`vec_distance_cosine` distance to each `link_id`. -/
def searchRows (catalog : List AffRow) (d : ℤ → ℚ) (args : SearchArgs) :
    List (AffRow × ℚ) :=
  sqlLimit args.num_results
    (List.insertionSort distRel
      ((catalog.map (fun r => (r, d r.link_id))).filter (fun p => passesWhere args p.1)))

/-- Model of `r[4] if r[4] else None`: the coupon field, `None` for a falsy stored
value (NULL or the empty string). -/
def couponField (c : Option String) : Option String :=
  if pyTruthyStr c then c else none

/-- Build the list of formatted results, failing (raising) if any row's
formatting raises. -/
def optionMapList {α β : Type} (f : α → Option β) : List α → Option (List β)
  | [] => some []
  | a :: l =>
    match f a, optionMapList f l with
    | some b, some bs => some (b :: bs)
    | _, _ => none

/-- Formatting of one search result row (affiliate_mcp_server.py:97-107).
`none` models the `ValueError` raised by `float()` on an unparseable
non-empty epc string. -/
def formatSearchRow (p : AffRow × ℚ) : Option ProductResult :=
  (normalize_epc p.1.epc_7day).map fun e =>
    ⟨p.1.name, p.1.description, p.1.category, p.1.click_url,
     couponField p.1.coupon_code, e, pyRound3 (oneSub p.2)⟩

/-- Model of `search_products` (affiliate_mcp_server.py:41-117).  `embed` is the
embedding provider (`client.embeddings.create`); `distOf` gives the cosine
distance of each stored vector (keyed by `link_id`) from a query embedding.
The body performs no validation of `query`: it calls the provider first and
then runs the retrieval and formatting steps. -/
def search_products (embed : String → Except Unit (List ℚ))
    (distOf : List ℚ → ℤ → ℚ) (catalog : List AffRow) (args : SearchArgs) :
    Except SearchErr (List ProductResult) :=
  match embed args.query with
  | Except.error _ => Except.error SearchErr.provider
  | Except.ok v =>
    match optionMapList formatSearchRow (searchRows catalog (distOf v) args) with
    | none => Except.error SearchErr.valueError
    | some rs => Except.ok rs

/-- Sort key of `ORDER BY CAST(epc_7day AS REAL) DESC`
(affiliate_mcp_server.py:161,170): NULL is below every REAL, so in a DESC
ordering NULL rows sort last. -/
def topKey (v : SqlVal) : WithBot ℚ :=
  match castEpcReal v with
  | none => ⊥
  | some q => (q : WithBot ℚ)

/-- Descending-cast ordering on rows for `get_top_products`. -/
def topRel (a b : AffRow) : Prop := topKey b.epc_7day ≤ topKey a.epc_7day

instance : DecidableRel topRel := fun a b =>
  inferInstanceAs (Decidable (topKey b.epc_7day ≤ topKey a.epc_7day))

instance : IsTotal AffRow topRel := ⟨fun a b => le_total (topKey b.epc_7day) (topKey a.epc_7day)⟩

instance : IsTrans AffRow topRel := ⟨fun _ _ _ h1 h2 => le_trans h2 h1⟩

/-- The relational query of `get_top_products`
(affiliate_mcp_server.py:154-175): optional exact category filter (only
when `category` is truthy, per `if category:`), order by
`CAST(epc_7day AS REAL) DESC`, `LIMIT limit`. -/
def topRows (catalog : List AffRow) (category : Option String) (limit : ℤ) :
    List AffRow :=
  let filtered := if pyTruthyStr category then
      catalog.filter (fun r => catMatch r.category category)
    else catalog
  sqlLimit limit (List.insertionSort topRel filtered)

/-- Formatting of one top-products row (affiliate_mcp_server.py:177-186);
the epc expression is character-for-character the one in
`search_products`. -/
def formatTopRow (r : AffRow) : Option TopResult :=
  (normalize_epc r.epc_7day).map fun e =>
    ⟨r.name, r.description, r.category, r.click_url, couponField r.coupon_code, e⟩

/-- Model of `get_top_products` (affiliate_mcp_server.py:141-193).  It runs no
embedding-provider call: the function does not take the provider as an
input at all. -/
def get_top_products (catalog : List AffRow) (category : Option String)
    (limit : ℤ) : Except SearchErr (List TopResult) :=
  match optionMapList formatTopRow (topRows catalog category limit) with
  | none => Except.error SearchErr.valueError
  | some rs => Except.ok rs

/-- Count-descending ordering for `ORDER BY count DESC`
(affiliate_mcp_server.py:130,230). -/
def countDescRel (a b : String × ℕ) : Prop := b.2 ≤ a.2

instance : DecidableRel countDescRel := fun a b => inferInstanceAs (Decidable (b.2 ≤ a.2))

instance : IsTotal (String × ℕ) countDescRel := ⟨fun a b => le_total b.2 a.2⟩

instance : IsTrans (String × ℕ) countDescRel := ⟨fun _ _ _ h1 h2 => le_trans h2 h1⟩

/-- Model of `SELECT category, COUNT(*) FROM affiliate_links WHERE category IS NOT
NULL GROUP BY category`: each distinct non-NULL category with its row
count. -/
def categoryCounts (catalog : List AffRow) : List (String × ℕ) :=
  let cats := catalog.filterMap (fun r => r.category)
  cats.dedup.map (fun c => (c, cats.count c))

/-- The dictionary returned by `get_product_stats`
(affiliate_mcp_server.py:196-236). -/
structure Stats where
  total_products : ℕ
  categories : ℕ
  average_epc : ℚ
  products_with_coupons : ℕ
  top_categories : List (String × ℕ)
deriving DecidableEq

/-- Model of `get_product_stats` (affiliate_mcp_server.py:196-236): row count,
`COUNT(DISTINCT category)` over non-NULL categories,
`AVG(CAST(epc_7day AS REAL))` over rows with non-NULL `epc_7day` (the
Python `round(avg_epc, 2) if avg_epc else 0` maps a NULL or zero average to
0), count of rows with non-NULL `coupon_code`, and the top 5 categories by
count. -/
def get_product_stats (catalog : List AffRow) : Stats :=
  let cats := catalog.filterMap (fun r => r.category)
  let vals := catalog.filterMap (fun r => castEpcReal r.epc_7day)
  ⟨catalog.length,
   cats.dedup.length,
   (if vals.isEmpty then 0
    else
      let a := qDivNat (vals.foldl qAdd 0) vals.length
      if a = 0 then 0 else pyRound2 a),
   catalog.countP (fun r => r.coupon_code.isSome),
   sqlLimit 5 (List.insertionSort countDescRel (categoryCounts catalog))⟩

/-- A raw CSV row consumed by `load_affiliate_db.py` (columns of
`data/affiliate_links.csv`); optional text fields are `none` when the cell
is missing (a pandas NaN). -/
structure CsvRow where
  link_id : ℤ
  advertiser : Option String
  name : Option String
  description : Option String
  keywords : Option String
  category : Option String
  promotion_type : Option String
  epc_7day : SqlVal
  epc_3month : SqlVal
  click_url : Option String
  coupon_code : Option String
deriving DecidableEq

/-- How an f-string renders a pandas field: a missing value is the float
`nan`, which formats as the string `"nan"`. -/
def pdRender : Option String → String
  | none => "nan"
  | some s => s

/-- Model of `pd.isna` applied to a value that is a Python `str`: always `False`
(only the float `nan` / `None` are "na"; a string — including `"nan"` —
never is). -/
def pdIsnaStr (_s : String) : Bool := false

/-- Model of `create_embedding_text` (load_affiliate_db.py:15-26): builds the five
labeled parts from the row, then keeps the parts for which
`pd.isna(part.split(": ")[1])` is falsy, joined with `" | "`.  Because
`part` is an f-string, `part.split(": ")[1]` is always a `str` and the
filter keeps every part. -/
def create_embedding_text (row : CsvRow) : String :=
  let text_parts := ["Product: " ++ pdRender row.name,
                     "Description: " ++ pdRender row.description,
                     "Keywords: " ++ pdRender row.keywords,
                     "Category: " ++ pdRender row.category,
                     "Type: " ++ pdRender row.promotion_type]
  String.intercalate " | "
    (text_parts.filter (fun part => !pdIsnaStr ((part.splitOn ": ").getD 1 "")))

/-- The two tables created by `setup_database` (load_affiliate_db.py:37-80):
`affiliate_links` keyed by `link_id` (with the attributes, the embedding
text and the stored embedding) and the `vec_links` vector table keyed by
the same `link_id`. -/
structure Db where
  affiliate_links : List (ℤ × CsvRow × String × List ℚ)
  vec_links : List (ℤ × List ℚ)
deriving DecidableEq

/-- Model of `setup_database` (load_affiliate_db.py:37-80): drops both tables if
they exist and recreates them empty, regardless of the previous state. -/
def setup_database (_prev : Db) : Db := ⟨[], []⟩

/-- Model of `df.drop_duplicates(subset=['LINK ID'], keep='first')`
(load_affiliate_db.py:89): keep the first occurrence of each `link_id`. -/
def drop_duplicates : List CsvRow → List CsvRow
  | [] => []
  | r :: rs =>
    r :: drop_duplicates (rs.filter (fun x => decide (x.link_id ≠ r.link_id)))
termination_by l => l.length
decreasing_by
  simp only [List.length_cons]
  exact Nat.lt_succ_of_le (List.length_filter_le _ _)

/-- Model of `INSERT OR REPLACE` into a table keyed by `link_id`: any existing row
with the key is replaced. -/
def insertOrReplace {α : Type} (tbl : List (ℤ × α)) (k : ℤ) (v : α) :
    List (ℤ × α) :=
  (tbl.filter (fun p => decide (p.1 ≠ k))) ++ [(k, v)]

/-- One iteration of the insert loop (load_affiliate_db.py:117-145): the
row is written to `affiliate_links` and its embedding to `vec_links`, both
under the row's `link_id`. -/
def ingest_step (embed : String → List ℚ) (db : Db) (rt : CsvRow × String) : Db :=
  ⟨insertOrReplace db.affiliate_links rt.1.link_id (rt.1, rt.2, embed rt.2),
   insertOrReplace db.vec_links rt.1.link_id (embed rt.2)⟩

/-- Model of `load_affiliate_data` (load_affiliate_db.py:82-155): read the CSV,
deduplicate by `link_id` keeping the first occurrence, derive each row's
embedding text, obtain embeddings from the provider (`embed` — batching
into groups of 100 does not change which text each row is embedded with),
call `setup_database` (dropping whatever `prev` contained), and insert
every row into both tables. -/
def load_affiliate_data (embed : String → List ℚ) (prev : Db)
    (csv : List CsvRow) : Db :=
  let df := drop_duplicates csv
  let rows := df.map (fun r => (r, create_embedding_text r))
  rows.foldl (ingest_step embed) (setup_database prev)

theorem optionMapList_forall2 {α β : Type} (f : α → Option β) :
    ∀ (l : List α) (rs : List β), optionMapList f l = some rs →
      List.Forall₂ (fun a b => f a = some b) l rs := by
  intro l
  induction l with
  | nil =>
    intro rs h
    simp only [optionMapList, Option.some.injEq] at h
    subst h
    exact List.Forall₂.nil
  | cons a l ih =>
    intro rs h
    unfold optionMapList at h
    cases hfa : f a with
    | none => rw [hfa] at h; simp at h
    | some b =>
      cases hml : optionMapList f l with
      | none => rw [hfa, hml] at h; simp at h
      | some bs =>
        rw [hfa, hml] at h
        simp only [Option.some.injEq] at h
        subst h
        exact List.Forall₂.cons hfa (ih bs hml)

theorem forall2_mem_right {α β : Type} {Q : α → β → Prop} :
    ∀ {l : List α} {rs : List β}, List.Forall₂ Q l rs → ∀ {b}, b ∈ rs →
      ∃ a ∈ l, Q a b := by
  intro l rs h
  induction h with
  | nil => intro b hb; cases hb
  | cons ha _ ih =>
    intro b hb
    cases hb with
    | head => exact ⟨_, List.mem_cons_self _ _, ha⟩
    | tail _ hb =>
      obtain ⟨a, hal, hq⟩ := ih hb
      exact ⟨a, List.mem_cons_of_mem _ hal, hq⟩

theorem optionMapList_eq_map {α β : Type} (f : α → Option β) (g : α → β)
    (hg : ∀ a b, f a = some b → b = g a) :
    ∀ (l : List α) (rs : List β), optionMapList f l = some rs → rs = l.map g := by
  intro l
  induction l with
  | nil =>
    intro rs h
    simp only [optionMapList, Option.some.injEq] at h
    subst h
    rfl
  | cons a l ih =>
    intro rs h
    unfold optionMapList at h
    cases hfa : f a with
    | none => rw [hfa] at h; simp at h
    | some b =>
      cases hml : optionMapList f l with
      | none => rw [hfa, hml] at h; simp at h
      | some bs =>
        rw [hfa, hml] at h
        simp only [Option.some.injEq] at h
        subst h
        rw [List.map_cons, ← ih bs hml, hg a b hfa]

theorem mem_searchRows {catalog : List AffRow} {d : ℤ → ℚ} {args : SearchArgs}
    {p : AffRow × ℚ} (hp : p ∈ searchRows catalog d args) :
    p.1 ∈ catalog ∧ passesWhere args p.1 = true ∧ p.2 = d p.1.link_id := by
  have hp2 : p ∈ List.insertionSort distRel
      ((catalog.map (fun r => (r, d r.link_id))).filter (fun x => passesWhere args x.1)) := by
    unfold searchRows sqlLimit at hp
    split at hp
    · exact hp
    · exact List.take_subset _ _ hp
  rw [List.mem_insertionSort] at hp2
  have hfil := List.mem_filter.mp hp2
  obtain ⟨r, hr, hrp⟩ := List.mem_map.mp hfil.1
  subst hrp
  exact ⟨hr, hfil.2, rfl⟩

theorem searchRows_sorted (catalog : List AffRow) (d : ℤ → ℚ) (args : SearchArgs) :
    (searchRows catalog d args).Pairwise distRel := by
  unfold searchRows sqlLimit
  split
  · exact List.sorted_insertionSort distRel _
  · exact List.Pairwise.sublist (List.take_sublist _ _)
      (List.sorted_insertionSort distRel _)

theorem filtered_length_eq (catalog : List AffRow) (d : ℤ → ℚ) (args : SearchArgs) :
    ((catalog.map (fun r => (r, d r.link_id))).filter
        (fun x => passesWhere args x.1)).length =
      catalog.countP (fun r => passesWhere args r) := by
  rw [← List.countP_eq_length_filter, List.countP_map]
  rfl

theorem searchRows_length {args : SearchArgs} (catalog : List AffRow) (d : ℤ → ℚ)
    (hk : 0 ≤ args.num_results) :
    (searchRows catalog d args).length =
      min args.num_results.toNat (catalog.countP (fun r => passesWhere args r)) := by
  unfold searchRows sqlLimit
  rw [if_neg (not_lt.mpr hk), List.length_take, List.length_insertionSort,
    filtered_length_eq]

theorem searchRows_length_neg {args : SearchArgs} (catalog : List AffRow) (d : ℤ → ℚ)
    (hk : args.num_results < 0) :
    (searchRows catalog d args).length =
      catalog.countP (fun r => passesWhere args r) := by
  unfold searchRows sqlLimit
  rw [if_pos hk, List.length_insertionSort, filtered_length_eq]

theorem catMatch_eq {rcat : Option String} {c : String}
    (h : catMatch rcat (some c) = true) : rcat = some c := by
  cases rcat with
  | none => simp [catMatch] at h
  | some rc =>
    simp only [catMatch, decide_eq_true_eq] at h
    rw [h]

theorem mem_topRows {catalog : List AffRow} {category : Option String}
    {limit : ℤ} {r : AffRow} (hr : r ∈ topRows catalog category limit) :
    r ∈ catalog ∧ ∀ c, category = some c → c ≠ "" → r.category = some c := by
  have hr2 : r ∈ List.insertionSort topRel
      (if pyTruthyStr category then
        catalog.filter (fun x => catMatch x.category category)
      else catalog) := by
    simp only [topRows, sqlLimit] at hr
    split at hr
    · exact hr
    · exact List.take_subset _ _ hr
  rw [List.mem_insertionSort] at hr2
  by_cases ht : pyTruthyStr category = true
  · rw [if_pos ht] at hr2
    have hm := List.mem_filter.mp hr2
    refine ⟨hm.1, ?_⟩
    intro c hc _
    rw [hc] at hm
    exact catMatch_eq hm.2
  · rw [if_neg ht] at hr2
    refine ⟨hr2, ?_⟩
    intro c hc hne
    exact absurd (by rw [hc]; simpa [pyTruthyStr] using hne) ht

theorem topRows_sorted (catalog : List AffRow) (category : Option String)
    (limit : ℤ) : (topRows catalog category limit).Pairwise topRel := by
  simp only [topRows, sqlLimit]
  split
  · exact List.sorted_insertionSort topRel _
  · exact List.Pairwise.sublist (List.take_sublist _ _)
      (List.sorted_insertionSort topRel _)

theorem topRows_length {limit : ℤ} (catalog : List AffRow)
    (category : Option String) (hk : 0 ≤ limit) :
    (topRows catalog category limit).length =
      min limit.toNat
        (if pyTruthyStr category then
          catalog.countP (fun r => catMatch r.category category)
        else catalog.length) := by
  simp only [topRows, sqlLimit]
  rw [if_neg (not_lt.mpr hk), List.length_take, List.length_insertionSort]
  by_cases ht : pyTruthyStr category = true
  · rw [if_pos ht, if_pos ht, ← List.countP_eq_length_filter]
  · rw [if_neg ht, if_neg ht]

theorem keys_insertOrReplace {α : Type} (t : List (ℤ × α)) (k : ℤ) (v : α) :
    (insertOrReplace t k v).map Prod.fst =
      ((t.map Prod.fst).filter (fun x => decide (x ≠ k))) ++ [k] := by
  unfold insertOrReplace
  rw [List.map_append, List.filter_map]
  rfl

theorem nodup_keys_insertOrReplace {α : Type} (t : List (ℤ × α)) (k : ℤ) (v : α)
    (h : (t.map Prod.fst).Nodup) :
    ((insertOrReplace t k v).map Prod.fst).Nodup := by
  rw [keys_insertOrReplace]
  rw [List.nodup_append]
  refine ⟨List.Nodup.filter (fun x : ℤ => decide (x ≠ k)) h, List.nodup_singleton k, ?_⟩
  intro x hx hk
  have hne : x ≠ k := by simpa using List.of_mem_filter hx
  rw [List.mem_singleton] at hk
  exact hne hk

theorem ingest_fold_keys (embed : String → List ℚ) :
    ∀ (rows : List (CsvRow × String)) (db : Db),
      db.affiliate_links.map Prod.fst = db.vec_links.map Prod.fst →
      (db.vec_links.map Prod.fst).Nodup →
      ((rows.foldl (ingest_step embed) db).affiliate_links.map Prod.fst =
          (rows.foldl (ingest_step embed) db).vec_links.map Prod.fst ∧
        ((rows.foldl (ingest_step embed) db).vec_links.map Prod.fst).Nodup) := by
  intro rows
  induction rows with
  | nil => intro db h1 h2; exact ⟨h1, h2⟩
  | cons rt rows ih =>
    intro db h1 h2
    refine ih (ingest_step embed db rt) ?_ ?_
    · show (insertOrReplace db.affiliate_links rt.1.link_id _).map Prod.fst =
        (insertOrReplace db.vec_links rt.1.link_id _).map Prod.fst
      rw [keys_insertOrReplace, keys_insertOrReplace, h1]
    · exact nodup_keys_insertOrReplace _ _ _ h2

/-- C4: after any ingestion run the sets of `link_id`s in the catalog table
and in the vector table coincide, each key occurs exactly once on each
side, and — because `setup_database` drops and recreates both stores — the
result is independent of whatever stale contents the stores held before
the run. -/
theorem C4_ingestion_invariant (embed : String → List ℚ) (prev : Db)
    (csv : List CsvRow) :
    (load_affiliate_data embed prev csv).affiliate_links.map Prod.fst =
        (load_affiliate_data embed prev csv).vec_links.map Prod.fst ∧
      ((load_affiliate_data embed prev csv).vec_links.map Prod.fst).Nodup ∧
      (∀ k : ℤ,
        ((load_affiliate_data embed prev csv).affiliate_links.map Prod.fst).count k =
            ((load_affiliate_data embed prev csv).vec_links.map Prod.fst).count k ∧
          ((load_affiliate_data embed prev csv).vec_links.map Prod.fst).count k ≤ 1) ∧
      ∀ prev2 : Db, load_affiliate_data embed prev csv =
        load_affiliate_data embed prev2 csv := by
  have hload : load_affiliate_data embed prev csv =
      ((drop_duplicates csv).map (fun r => (r, create_embedding_text r))).foldl
        (ingest_step embed) (setup_database prev) := rfl
  obtain ⟨h1, h2⟩ := ingest_fold_keys embed
    ((drop_duplicates csv).map (fun r => (r, create_embedding_text r)))
    (setup_database prev) rfl List.nodup_nil
  rw [hload]
  refine ⟨h1, h2, ?_, ?_⟩
  · intro k
    constructor
    · rw [h1]
    · exact List.nodup_iff_count_le_one.mp h2 k
  · intro prev2
    rfl

/-- Total variant of `formatSearchRow` (defined only for stating results:
on rows whose formatting does not raise the two agree). -/
def formatSearchRowTotal (p : AffRow × ℚ) : ProductResult :=
  ⟨p.1.name, p.1.description, p.1.category, p.1.click_url,
   couponField p.1.coupon_code, (normalize_epc p.1.epc_7day).getD 0,
   pyRound3 (oneSub p.2)⟩

/-- Total variant of `formatTopRow`. -/
def formatTopRowTotal (r : AffRow) : TopResult :=
  ⟨r.name, r.description, r.category, r.click_url,
   couponField r.coupon_code, (normalize_epc r.epc_7day).getD 0⟩

/-- An embedding-provider stub that always succeeds. -/
def embedOk : String → Except Unit (List ℚ) := fun _ => Except.ok []

/-- A distance-assignment stub: every stored vector is at distance 0. -/
def dist0 : List ℚ → ℤ → ℚ := fun _ _ => 0

/-- The spec's §8 scenario catalog: `{id:1, category:"Books",
epc:"$2.00 USD"}`, `{id:2, category:"Books", epc:"1.50"}`, `{id:3,
category:"Tech", epc:null}`. -/
def rowA : AffRow :=
  ⟨1, some "Book A", none, some "Books", some "http://a", none, SqlVal.str "$2.00 USD"⟩

def rowB : AffRow :=
  ⟨2, some "Book B", none, some "Books", some "http://b", none, SqlVal.str "1.50"⟩

def rowC : AffRow :=
  ⟨3, some "Gadget", none, some "Tech", some "http://c", none, SqlVal.null⟩

def scenarioCatalog : List AffRow := [rowA, rowB, rowC]

theorem formatSearchRow_total {p : AffRow × ℚ} {r : ProductResult}
    (h : formatSearchRow p = some r) : r = formatSearchRowTotal p := by
  unfold formatSearchRow at h
  cases hn : normalize_epc p.1.epc_7day with
  | none => rw [hn] at h; cases h
  | some e =>
    rw [hn] at h
    simp only [Option.map_some', Option.some.injEq] at h
    rw [← h, formatSearchRowTotal, hn]
    rfl

theorem formatTopRow_total {x : AffRow} {r : TopResult}
    (h : formatTopRow x = some r) : r = formatTopRowTotal x := by
  unfold formatTopRow at h
  cases hn : normalize_epc x.epc_7day with
  | none => rw [hn] at h; cases h
  | some e =>
    rw [hn] at h
    simp only [Option.map_some', Option.some.injEq] at h
    rw [← h, formatTopRowTotal, hn]
    rfl

/-- C1 (counterexample): the claim says an unparseable `epc_7day` value
yields `0.0`; on the stored text `"N/A"` the code instead raises a
`ValueError` from `float("N/A")` (modelled as `none`), which propagates out
of the tool call. -/
theorem C1_unparseable_counterexample :
    normalize_epc (SqlVal.str "N/A") = none ∧
      normalize_epc (SqlVal.str "N/A") ≠ some 0 := by
  decide

/-- C1 (amended): epc normalization is the single pure function
`normalize_epc` of the raw `epc_7day` field, applied identically in
`search_products` and `get_top_products` (their `epc` fields agree on every
row); `"$1.23 USD"` yields `1.23`, `"4.5"` yields `4.5`, a stored number
passes through, and an absent (NULL) or empty value yields `0.0` — but a
non-empty string that is unparseable after stripping (such as `"N/A"`)
raises an error instead of yielding `0.0`. -/
theorem C1_epc_normalization :
    (∀ q : ℚ, normalize_epc (SqlVal.num q) = some q)
    ∧ normalize_epc SqlVal.null = some 0
    ∧ normalize_epc (SqlVal.str "") = some 0
    ∧ normalize_epc (SqlVal.str "$1.23 USD") = some (123 / 100)
    ∧ normalize_epc (SqlVal.str "4.5") = some (9 / 2)
    ∧ normalize_epc (SqlVal.str "N/A") = none
    ∧ ∀ p : AffRow × ℚ,
        (formatSearchRow p).map ProductResult.epc =
          (formatTopRow p.1).map TopResult.epc := by
  refine ⟨?_, by decide, by decide, ?_, ?_, by decide, ?_⟩
  · intro q
    by_cases hq : q = 0
    · simp [normalize_epc, hq]
    · simp [normalize_epc, hq]
  · have h : normalize_epc (SqlVal.str "$1.23 USD") = some (Rat.divInt 123 100) := by decide
    rw [h]
    norm_num [Rat.divInt_eq_div]
  · have h : normalize_epc (SqlVal.str "4.5") = some (Rat.divInt 9 2) := by decide
    rw [h]
    norm_num [Rat.divInt_eq_div]
  · intro p
    cases hn : normalize_epc p.1.epc_7day <;>
      simp [formatSearchRow, formatTopRow, hn]

/-- C6 (code_bug evidence): on a CSV row whose `NAME` is missing (pandas
NaN), `create_embedding_text` renders the segment as `"Product: nan"` and
keeps it — the `pd.isna(part.split(": ")[1])` filter inspects the already
formatted string, which is never NaN — contradicting both the claim and the
function's own `Filter out NaN values` comment. -/
theorem C6_nan_segment_not_omitted :
    create_embedding_text
        ⟨1, none, none, some "Great book", some "books", some "Books",
         some "cpc", SqlVal.null, SqlVal.null, none, none⟩ =
      "Product: nan | Description: Great book | Keywords: books | Category: Books | Type: cpc"
    ∧ create_embedding_text
        ⟨1, none, none, some "Great book", some "books", some "Books",
         some "cpc", SqlVal.null, SqlVal.null, none, none⟩ ≠
      "Description: Great book | Keywords: books | Category: Books | Type: cpc" := by
  constructor
  · rfl
  · decide

theorem get_top_products_ok {catalog : List AffRow} {category : Option String}
    {limit : ℤ} {rs : List TopResult}
    (h : get_top_products catalog category limit = Except.ok rs) :
    optionMapList formatTopRow (topRows catalog category limit) = some rs := by
  unfold get_top_products at h
  cases h2 : optionMapList formatTopRow (topRows catalog category limit) with
  | none => rw [h2] at h; cases h
  | some l =>
    rw [h2] at h
    simp only [Except.ok.injEq] at h
    rw [h]

theorem search_products_ok {embed : String → Except Unit (List ℚ)}
    {distOf : List ℚ → ℤ → ℚ} {catalog : List AffRow} {args : SearchArgs}
    {v : List ℚ} {rs : List ProductResult}
    (hv : embed args.query = Except.ok v)
    (h : search_products embed distOf catalog args = Except.ok rs) :
    optionMapList formatSearchRow (searchRows catalog (distOf v) args) = some rs := by
  unfold search_products at h
  rw [hv] at h
  have h3 : (match optionMapList formatSearchRow (searchRows catalog (distOf v) args) with
      | none => (Except.error SearchErr.valueError : Except SearchErr (List ProductResult))
      | some rs => Except.ok rs) = Except.ok rs := h
  cases h2 : optionMapList formatSearchRow (searchRows catalog (distOf v) args) with
  | none => rw [h2] at h3; cases h3
  | some l =>
    rw [h2] at h3
    simp only [Except.ok.injEq] at h3
    rw [h3]

/-- The two §8-scenario Books results as the code actually formats them:
`rowB` (stored `"1.50"`, epc 1.5) and `rowA` (stored `"$2.00 USD"`,
epc 2.0). -/
def topB : TopResult :=
  ⟨some "Book B", none, some "Books", some "http://b", none, Rat.divInt 3 2⟩

def topA : TopResult :=
  ⟨some "Book A", none, some "Books", some "http://a", none, 2⟩

/-- C3 (counterexample): on the spec's scenario catalog,
`get_top_products(category="Books", limit=5)` returns id:2 (epc 1.5)
*before* id:1 (epc 2.0), because the ordering key is
`CAST(epc_7day AS REAL)` — which is 0.0 for the currency string
`"$2.00 USD"` — not the normalized epc; the claim's expected order
`[id:1, id:2]` is refuted. -/
theorem C3_scenario_counterexample :
    (get_top_products scenarioCatalog (some "Books") 5).toOption.map
        (List.map TopResult.epc) = some [Rat.divInt 3 2, 2]
    ∧ (get_top_products scenarioCatalog (some "Books") 5).toOption.map
        (List.map TopResult.epc) ≠ some [2, Rat.divInt 3 2] := by
  decide

/-- C3 (amended): `get_top_products` returns records ordered by
`CAST(epc_7day AS REAL)` descending (`topRel`; NULL casts sort last, and a
currency-formatted string casts to 0.0, not its normalized value),
filtered to one category when the argument is a non-empty string,
truncated to `limit`, with each result formatted from the corresponding
row; no embedding-provider call is made (the function does not consume the
provider at all).  On the scenario catalog the Books ordering is id:2
(epc 1.5) before id:1 (epc 2.0). -/
theorem C3_top_products :
    (∀ (catalog : List AffRow) (category : Option String) (limit : ℤ),
        (topRows catalog category limit).Pairwise topRel)
    ∧ (∀ (catalog : List AffRow) (category : Option String) (limit : ℤ)
        (r : AffRow) (c : String), r ∈ topRows catalog category limit →
        category = some c → c ≠ "" → r ∈ catalog ∧ r.category = some c)
    ∧ (∀ (catalog : List AffRow) (category : Option String) (limit : ℤ)
        (rs : List TopResult), 0 ≤ limit →
        get_top_products catalog category limit = Except.ok rs →
        rs.length = min limit.toNat
          (if pyTruthyStr category then
            catalog.countP (fun r => catMatch r.category category)
          else catalog.length))
    ∧ (∀ (catalog : List AffRow) (category : Option String) (limit : ℤ)
        (rs : List TopResult),
        get_top_products catalog category limit = Except.ok rs →
        rs = (topRows catalog category limit).map formatTopRowTotal)
    ∧ (get_top_products scenarioCatalog (some "Books") 5).toOption.map
        (List.map TopResult.epc) = some [Rat.divInt 3 2, 2] := by
  refine ⟨topRows_sorted, ?_, ?_, ?_, by decide⟩
  · intro catalog category limit r c hr hc hne
    exact ⟨(mem_topRows hr).1, (mem_topRows hr).2 c hc hne⟩
  · intro catalog category limit rs h0 hok
    have hf := optionMapList_forall2 formatTopRow _ _ (get_top_products_ok hok)
    rw [← hf.length_eq, topRows_length catalog category h0]
  · intro catalog category limit rs hok
    exact optionMapList_eq_map formatTopRow formatTopRowTotal
      (fun a b h => formatTopRow_total h) _ _ (get_top_products_ok hok)

theorem C3_top_products_witness :
    (rowB ∈ scenarioCatalog ∧ rowB.category = some "Books")
    ∧ ([topB, topA] : List TopResult).length = min (5 : ℤ).toNat
        (if pyTruthyStr (some "Books") then
          scenarioCatalog.countP (fun r => catMatch r.category (some "Books"))
        else scenarioCatalog.length)
    ∧ ([topB, topA] : List TopResult) =
        (topRows scenarioCatalog (some "Books") 5).map formatTopRowTotal :=
  ⟨C3_top_products.2.1 scenarioCatalog (some "Books") 5 rowB "Books"
      (by decide) rfl (by decide),
   C3_top_products.2.2.1 scenarioCatalog (some "Books") 5 [topB, topA]
      (by decide) (by decide),
   C3_top_products.2.2.2.1 scenarioCatalog (some "Books") 5 [topB, topA]
      (by decide)⟩

theorem foldl_qAdd (l : List ℚ) : ∀ a : ℚ, l.foldl qAdd a = a + l.sum := by
  induction l with
  | nil => intro a; simp
  | cons x l ih =>
    intro a
    rw [List.foldl_cons, ih, qAdd_eq, List.sum_cons]
    ring

theorem pyRound2_zero : pyRound2 0 = 0 := by decide

/-- C5 (counterexample): on the spec's scenario catalog the code's
`average_epc` is `0.75`, not the claimed `1.75`: the SQL average is over
`CAST(epc_7day AS REAL)`, which maps the currency string `"$2.00 USD"` to
`0.0` instead of its normalized value `2.0`. -/
theorem C5_average_counterexample :
    (get_product_stats scenarioCatalog).average_epc = Rat.divInt 3 4
    ∧ (get_product_stats scenarioCatalog).average_epc ≠ Rat.divInt 7 4 := by
  decide

/-- C5 (amended): `get_product_stats` returns the total record count, the
count of distinct non-null categories, the mean of
`CAST(epc_7day AS REAL)` over rows with non-null `epc_7day` rounded to 2
decimals (0 when there are no such rows; note this is the SQL cast, not
the normalized epc surfaced in results), the count of records with
non-null `coupon_code`, and the top 5 categories by count; on the
3-record scenario catalog it returns `total_products=3`, `categories=2`,
`average_epc=0.75` (not 1.75) and `products_with_coupons=0`. -/
theorem C5_product_stats :
    (∀ catalog : List AffRow,
        (get_product_stats catalog).total_products = catalog.length)
    ∧ (∀ catalog : List AffRow, (get_product_stats catalog).categories =
        (catalog.filterMap (fun r => r.category)).toFinset.card)
    ∧ (∀ catalog : List AffRow,
        (get_product_stats catalog).products_with_coupons =
          (catalog.filter (fun r => r.coupon_code.isSome)).length)
    ∧ (∀ (catalog : List AffRow) (vals : List ℚ),
        catalog.filterMap (fun r => castEpcReal r.epc_7day) = vals →
        vals ≠ [] →
        (get_product_stats catalog).average_epc =
          pyRound2 (vals.sum / (vals.length : ℚ)))
    ∧ (∀ catalog : List AffRow,
        catalog.filterMap (fun r => castEpcReal r.epc_7day) = [] →
        (get_product_stats catalog).average_epc = 0)
    ∧ (∀ catalog : List AffRow,
        (get_product_stats catalog).top_categories.length ≤ 5)
    ∧ (∀ catalog : List AffRow,
        (get_product_stats catalog).top_categories.Pairwise countDescRel)
    ∧ (∀ (catalog : List AffRow) (pr : String × ℕ),
        pr ∈ (get_product_stats catalog).top_categories →
        pr.2 = (catalog.filterMap (fun r => r.category)).count pr.1)
    ∧ (get_product_stats scenarioCatalog).total_products = 3
    ∧ (get_product_stats scenarioCatalog).categories = 2
    ∧ (get_product_stats scenarioCatalog).average_epc = Rat.divInt 3 4
    ∧ (get_product_stats scenarioCatalog).products_with_coupons = 0
    ∧ (get_product_stats scenarioCatalog).top_categories =
        [("Books", 2), ("Tech", 1)] := by
  refine ⟨?_, ?_, ?_, ?_, ?_, ?_, ?_, ?_,
    by decide, by decide, by decide, by decide, by decide⟩
  · intro catalog
    rfl
  · intro catalog
    exact (List.card_toFinset _).symm
  · intro catalog
    exact List.countP_eq_length_filter _ _
  · intro catalog vals hv hne
    have hs : (get_product_stats catalog).average_epc =
        (if vals.isEmpty then 0
         else
           let a := qDivNat (vals.foldl qAdd 0) vals.length
           if a = 0 then 0 else pyRound2 a) := by
      rw [← hv]
      rfl
    have hie : vals.isEmpty = false := by
      cases vals with
      | nil => exact absurd rfl hne
      | cons x l => rfl
    have ha : qDivNat (vals.foldl qAdd 0) vals.length =
        vals.sum / (vals.length : ℚ) := by
      rw [foldl_qAdd, zero_add, qDivNat_eq]
    rw [hs, hie]
    simp only [Bool.false_eq_true, if_false]
    by_cases h0 : qDivNat (vals.foldl qAdd 0) vals.length = 0
    · rw [if_pos h0, ← ha, h0, pyRound2_zero]
    · rw [if_neg h0, ha]
  · intro catalog hv
    have hs : (get_product_stats catalog).average_epc =
        (if ([] : List ℚ).isEmpty then 0
         else
           let a := qDivNat (([] : List ℚ).foldl qAdd 0) ([] : List ℚ).length
           if a = 0 then 0 else pyRound2 a) := by
      rw [← hv]
      rfl
    rw [hs]
    rfl
  · intro catalog
    show (sqlLimit 5 _).length ≤ 5
    unfold sqlLimit
    rw [if_neg (by norm_num : ¬ (5 : ℤ) < 0)]
    exact List.length_take_le _ _
  · intro catalog
    show (sqlLimit 5 _).Pairwise countDescRel
    unfold sqlLimit
    rw [if_neg (by norm_num : ¬ (5 : ℤ) < 0)]
    exact List.Pairwise.sublist (List.take_sublist _ _)
      (List.sorted_insertionSort countDescRel _)
  · intro catalog pr hpr
    have hpr2 : pr ∈ categoryCounts catalog := by
      have h1 : pr ∈ List.insertionSort countDescRel (categoryCounts catalog) := by
        revert hpr
        show pr ∈ sqlLimit 5 _ → _
        unfold sqlLimit
        rw [if_neg (by norm_num : ¬ (5 : ℤ) < 0)]
        exact fun h => List.take_subset _ _ h
      rw [List.mem_insertionSort] at h1
      exact h1
    unfold categoryCounts at hpr2
    obtain ⟨c, _, hcp⟩ := List.mem_map.mp hpr2
    rw [← hcp]

theorem C5_product_stats_witness :
    (get_product_stats scenarioCatalog).average_epc =
        pyRound2 (([0, Rat.divInt 3 2] : List ℚ).sum /
          ((([0, Rat.divInt 3 2] : List ℚ).length : ℕ) : ℚ))
    ∧ (get_product_stats [rowC]).average_epc = 0
    ∧ (2 : ℕ) = (scenarioCatalog.filterMap (fun r => r.category)).count "Books" :=
  ⟨C5_product_stats.2.2.2.1 scenarioCatalog [0, Rat.divInt 3 2]
      (by decide) (by decide),
   C5_product_stats.2.2.2.2.1 [rowC] (by decide),
   C5_product_stats.2.2.2.2.2.2.2.1 scenarioCatalog ("Books", 2) (by decide)⟩

theorem relevance_antitone {a b : AffRow × ℚ} (h : distRel a b) :
    (formatSearchRowTotal b).relevance ≤ (formatSearchRowTotal a).relevance := by
  show pyRound3 (oneSub b.2) ≤ pyRound3 (oneSub a.2)
  apply pyRound3_mono
  rw [oneSub_eq, oneSub_eq]
  exact sub_le_sub_left h 1

/-- A catalog row whose stored epc is currency-formatted text. -/
def rowCur : AffRow :=
  ⟨7, some "Cur", none, some "Books", some "http://cur", none, SqlVal.str "$2.00 USD"⟩

/-- C2 (counterexample): a one-row catalog whose record has normalized epc
2.0 ≥ 1 and category "Books"; the claim demands `min(1, 1) = 1` result for
`search_products(..., num_results=1, min_epc=1, category="Books")`, but the
code returns 0 results because its `min_epc` filter compares
`CAST(epc_7day AS REAL) = 0.0`, not the normalized epc. -/
theorem C2_cast_filter_counterexample :
    search_products embedOk dist0 [rowCur] ⟨"books", 1, some 1, some "Books"⟩ =
        Except.ok []
    ∧ normalize_epc rowCur.epc_7day = some 2
    ∧ catMatch rowCur.category (some "Books") = true
    ∧ min (1 : ℤ).toNat 1 = 1 := by
  decide

/-- C2 (amended): `search_products` applies its filters as a WHERE
predicate before truncation — the `min_epc` filter being
`CAST(epc_7day AS REAL) >= t` (not the normalized epc; NULL rows are
dropped) and the category filter an exact match applied only when the
category argument is a non-empty string — and returns exactly
`min(k, number of rows passing those SQL filters)` results for positive
`k`, ordered by ascending cosine distance, i.e. descending
`relevance = round(1 - distance, 3)`. -/
theorem C2_search_filter_limit :
    (∀ (catalog : List AffRow) (d : ℤ → ℚ) (args : SearchArgs),
        0 < args.num_results →
        (searchRows catalog d args).length =
          min args.num_results.toNat
            (catalog.countP (fun r => passesWhere args r)))
    ∧ (∀ (catalog : List AffRow) (d : ℤ → ℚ) (args : SearchArgs),
        (searchRows catalog d args).Pairwise distRel)
    ∧ (∀ (catalog : List AffRow) (d : ℤ → ℚ) (args : SearchArgs)
        (p : AffRow × ℚ), p ∈ searchRows catalog d args →
        p.1 ∈ catalog ∧ passesWhere args p.1 = true ∧ p.2 = d p.1.link_id)
    ∧ (∀ (embed : String → Except Unit (List ℚ)) (distOf : List ℚ → ℤ → ℚ)
        (catalog : List AffRow) (args : SearchArgs) (v : List ℚ)
        (rs : List ProductResult), embed args.query = Except.ok v →
        search_products embed distOf catalog args = Except.ok rs →
        rs = (searchRows catalog (distOf v) args).map formatSearchRowTotal)
    ∧ (∀ (embed : String → Except Unit (List ℚ)) (distOf : List ℚ → ℤ → ℚ)
        (catalog : List AffRow) (args : SearchArgs) (v : List ℚ)
        (rs : List ProductResult), embed args.query = Except.ok v →
        search_products embed distOf catalog args = Except.ok rs →
        rs.Pairwise (fun a b => b.relevance ≤ a.relevance))
    ∧ (∀ (p : AffRow × ℚ) (r : ProductResult), formatSearchRow p = some r →
        r.relevance = pyRound3 (oneSub p.2)) := by
  have hD : ∀ (embed : String → Except Unit (List ℚ)) (distOf : List ℚ → ℤ → ℚ)
      (catalog : List AffRow) (args : SearchArgs) (v : List ℚ)
      (rs : List ProductResult), embed args.query = Except.ok v →
      search_products embed distOf catalog args = Except.ok rs →
      rs = (searchRows catalog (distOf v) args).map formatSearchRowTotal := by
    intro embed distOf catalog args v rs hv hok
    exact optionMapList_eq_map formatSearchRow formatSearchRowTotal
      (fun a b h => formatSearchRow_total h) _ _ (search_products_ok hv hok)
  refine ⟨?_, searchRows_sorted, ?_, hD, ?_, ?_⟩
  · intro catalog d args hk
    exact searchRows_length catalog d (le_of_lt hk)
  · intro catalog d args p hp
    exact mem_searchRows hp
  · intro embed distOf catalog args v rs hv hok
    rw [hD embed distOf catalog args v rs hv hok]
    rw [List.pairwise_map]
    exact List.Pairwise.imp (fun h => relevance_antitone h)
      (searchRows_sorted catalog (distOf v) args)
  · intro p r h
    rw [formatSearchRow_total h]
    rfl

/-- A plain one-row catalog and its formatted search result, used to
witness the search theorems. -/
def rowNum : AffRow :=
  ⟨5, some "A", none, none, some "http://n", none, SqlVal.num 1⟩

def resNum : ProductResult :=
  ⟨some "A", none, none, some "http://n", none, 1, 1⟩

theorem C2_search_filter_limit_witness :
    (searchRows [rowNum] (dist0 []) ⟨"x", 1, none, none⟩).length =
        min (1 : ℤ).toNat
          ([rowNum].countP (fun r => passesWhere ⟨"x", 1, none, none⟩ r))
    ∧ ((rowNum, (0 : ℚ)).1 ∈ [rowNum]
        ∧ passesWhere ⟨"x", 1, none, none⟩ (rowNum, (0 : ℚ)).1 = true
        ∧ (rowNum, (0 : ℚ)).2 = dist0 [] (rowNum, (0 : ℚ)).1.link_id)
    ∧ ([resNum] : List ProductResult) =
        (searchRows [rowNum] (dist0 []) ⟨"x", 1, none, none⟩).map
          formatSearchRowTotal
    ∧ ([resNum] : List ProductResult).Pairwise
        (fun a b => b.relevance ≤ a.relevance)
    ∧ resNum.relevance = pyRound3 (oneSub (rowNum, (0 : ℚ)).2) :=
  ⟨C2_search_filter_limit.1 [rowNum] (dist0 []) ⟨"x", 1, none, none⟩ (by decide),
   C2_search_filter_limit.2.2.1 [rowNum] (dist0 []) ⟨"x", 1, none, none⟩
     (rowNum, 0) (by decide),
   C2_search_filter_limit.2.2.2.1 embedOk dist0 [rowNum] ⟨"x", 1, none, none⟩
     [] [resNum] (by decide) (by decide),
   C2_search_filter_limit.2.2.2.2.1 embedOk dist0 [rowNum] ⟨"x", 1, none, none⟩
     [] [resNum] (by decide) (by decide),
   C2_search_filter_limit.2.2.2.2.2 (rowNum, 0) resNum (by decide)⟩

/-- Six plain rows (everything passes an unfiltered search). -/
def cat6 : List AffRow :=
  [⟨11, some "P1", none, none, some "http://1", none, SqlVal.num 1⟩,
   ⟨12, some "P2", none, none, some "http://2", none, SqlVal.num 2⟩,
   ⟨13, some "P3", none, none, some "http://3", none, SqlVal.num 3⟩,
   ⟨14, some "P4", none, none, some "http://4", none, SqlVal.num 4⟩,
   ⟨15, some "P5", none, none, some "http://5", none, SqlVal.num 5⟩,
   ⟨16, some "P6", none, none, some "http://6", none, SqlVal.num 6⟩]

/-- The source default of `num_results` (affiliate_mcp_server.py:44). -/
def search_default_num_results : ℤ := 5

/-- C7 (counterexample): a caller-supplied `num_results = -1` is not
normalized to the default 5 — it is passed straight into SQL `LIMIT`,
where a negative limit means "no limit", so a 6-row catalog yields 6
results (more than the claimed maximum of 5). -/
theorem C7_negative_limit_counterexample :
    (search_products embedOk dist0 cat6 ⟨"q", -1, none, none⟩).toOption.map
        List.length = some 6
    ∧ ¬ (6 : ℕ) ≤ 5 := by
  decide

/-- C7 (amended): an absent `num_results` takes the Python default 5 and
the retrieval then returns `min(5, candidates)` rows; but a caller-supplied
non-positive value is *not* normalized: it reaches SQL `LIMIT` unchanged,
so a negative value returns every filtered row (SQLite treats a negative
limit as unlimited) and zero returns an empty list. -/
theorem C7_limit_handling :
    (∀ (catalog : List AffRow) (d : ℤ → ℚ) (q : String) (mi : Option ℚ)
        (c : Option String),
        (searchRows catalog d ⟨q, search_default_num_results, mi, c⟩).length =
          min 5 (catalog.countP
            (fun r => passesWhere ⟨q, search_default_num_results, mi, c⟩ r)))
    ∧ (∀ (catalog : List AffRow) (d : ℤ → ℚ) (args : SearchArgs),
        args.num_results < 0 →
        (searchRows catalog d args).length =
          catalog.countP (fun r => passesWhere args r))
    ∧ (∀ (catalog : List AffRow) (d : ℤ → ℚ) (args : SearchArgs),
        args.num_results = 0 → searchRows catalog d args = []) := by
  refine ⟨?_, ?_, ?_⟩
  · intro catalog d q mi c
    exact searchRows_length catalog d
      (show (0 : ℤ) ≤ search_default_num_results by decide)
  · intro catalog d args hk
    exact searchRows_length_neg catalog d hk
  · intro catalog d args hk
    unfold searchRows sqlLimit
    rw [hk]
    rw [if_neg (lt_irrefl 0), Int.toNat_zero, List.take_zero]

theorem C7_limit_handling_witness :
    (searchRows cat6 (dist0 []) ⟨"q", -1, none, none⟩).length =
        cat6.countP (fun r => passesWhere ⟨"q", -1, none, none⟩ r)
    ∧ searchRows cat6 (dist0 []) ⟨"q", 0, none, none⟩ = [] :=
  ⟨C7_limit_handling.2.1 cat6 (dist0 []) ⟨"q", -1, none, none⟩ (by decide),
   C7_limit_handling.2.2 cat6 (dist0 []) ⟨"q", 0, none, none⟩ rfl⟩

/-- C8 (counterexample): `search_products` performs no validation of the
required `query` argument: with an empty query and a provider that accepts
it, the call succeeds and returns results — it does not raise a
`ValidationError`. -/
theorem C8_no_validation_counterexample :
    search_products embedOk dist0 [rowNum] ⟨"", 5, none, none⟩ =
        Except.ok [resNum]
    ∧ (Except.ok [resNum] : Except SearchErr (List ProductResult)) ≠
        Except.error SearchErr.validation := by
  decide

/-- C8 (amended): an empty query is not validated; `search_products`
forwards it to the embedding provider.  The call never produces a
`ValidationError`; it fails with a provider error exactly when the provider
fails on the empty string. -/
theorem C8_empty_query_forwarded :
    ∀ (embed : String → Except Unit (List ℚ)) (distOf : List ℚ → ℤ → ℚ)
      (catalog : List AffRow) (args : SearchArgs), args.query = "" →
      (search_products embed distOf catalog args ≠
          Except.error SearchErr.validation)
      ∧ (embed "" = Except.error () →
          search_products embed distOf catalog args =
            Except.error SearchErr.provider)
      ∧ (∀ v : List ℚ, embed "" = Except.ok v →
          search_products embed distOf catalog args ≠
            Except.error SearchErr.provider) := by
  intro embed distOf catalog args hq
  refine ⟨?_, ?_, ?_⟩
  · intro hcontra
    unfold search_products at hcontra
    rw [hq] at hcontra
    split at hcontra
    · exact absurd (Except.error.inj hcontra) (by decide)
    · split at hcontra
      · exact absurd (Except.error.inj hcontra) (by decide)
      · exact Except.noConfusion hcontra
  · intro h2
    unfold search_products
    rw [hq, h2]
  · intro v hv hcontra
    unfold search_products at hcontra
    rw [hq, hv] at hcontra
    have hcontra2 : (match optionMapList formatSearchRow
          (searchRows catalog (distOf v) args) with
        | none => (Except.error SearchErr.valueError :
            Except SearchErr (List ProductResult))
        | some rs => Except.ok rs) = Except.error SearchErr.provider := hcontra
    split at hcontra2
    · exact absurd (Except.error.inj hcontra2) (by decide)
    · exact Except.noConfusion hcontra2

theorem C8_empty_query_forwarded_witness :
    (search_products embedOk dist0 [rowNum] ⟨"", 5, none, none⟩ ≠
        Except.error SearchErr.validation)
    ∧ (embedOk "" = Except.error () →
        search_products embedOk dist0 [rowNum] ⟨"", 5, none, none⟩ =
          Except.error SearchErr.provider)
    ∧ (∀ v : List ℚ, embedOk "" = Except.ok v →
        search_products embedOk dist0 [rowNum] ⟨"", 5, none, none⟩ ≠
          Except.error SearchErr.provider) :=
  C8_empty_query_forwarded embedOk dist0 [rowNum] ⟨"", 5, none, none⟩ rfl

/-- A row whose stored `coupon_code` is the empty string (present, not
NULL). -/
def rowEmptyCoupon : AffRow :=
  ⟨9, some "E", none, some "Books", some "http://e", some "", SqlVal.num 1⟩

/-- The row `rowEmptyCoupon` as the code formats it: the empty coupon is mapped to
`None` by the truthiness test `r[4] if r[4] else None`. -/
def topE : TopResult :=
  ⟨some "E", none, some "Books", some "http://e", none, 1⟩

/-- A row carrying a real coupon code, and its two formatted shapes. -/
def rowCoup : AffRow :=
  ⟨10, some "C", none, none, some "http://k", some "SAVE", SqlVal.num 1⟩

def resCoup : ProductResult :=
  ⟨some "C", none, none, some "http://k", some "SAVE", 1, 1⟩

def topCoup : TopResult :=
  ⟨some "C", none, none, some "http://k", some "SAVE", 1⟩

/-- C9 (counterexample): with a stored `coupon_code = ""` (present but
empty), `get_top_products` returns `coupon = None` rather than the stored
value unchanged: the formatter tests Python truthiness (`r[4] if r[4] else
None`), which conflates the empty string with absence. -/
theorem C9_empty_coupon_counterexample :
    (get_top_products [rowEmptyCoupon] none 10).toOption.map
        (List.map TopResult.coupon) = some [none]
    ∧ rowEmptyCoupon.coupon_code = some ""
    ∧ (some [(none : Option String)] : Option (List (Option String))) ≠
        some [some ""] := by
  decide

/-- C9 (amended): for every record formatted by `search_products` or
`get_top_products`, `name`, `description`, `category` pass through
unchanged, `url` is the stored `click_url` verbatim (never rewritten), and
`coupon` equals the stored `coupon_code` when that is a non-empty string,
and is null when `coupon_code` is absent *or the empty string* (Python
truthiness, not just absence). -/
theorem C9_passthrough :
    (∀ (p : AffRow × ℚ) (r : ProductResult), formatSearchRow p = some r →
        r.name = p.1.name ∧ r.description = p.1.description
        ∧ r.category = p.1.category ∧ r.url = p.1.click_url)
    ∧ (∀ (p : AffRow × ℚ) (r : ProductResult) (c : String),
        formatSearchRow p = some r → p.1.coupon_code = some c → c ≠ "" →
        r.coupon = some c)
    ∧ (∀ (p : AffRow × ℚ) (r : ProductResult), formatSearchRow p = some r →
        p.1.coupon_code = none ∨ p.1.coupon_code = some "" → r.coupon = none)
    ∧ (∀ (x : AffRow) (r : TopResult), formatTopRow x = some r →
        r.name = x.name ∧ r.description = x.description
        ∧ r.category = x.category ∧ r.url = x.click_url)
    ∧ (∀ (x : AffRow) (r : TopResult) (c : String),
        formatTopRow x = some r → x.coupon_code = some c → c ≠ "" →
        r.coupon = some c)
    ∧ (∀ (x : AffRow) (r : TopResult), formatTopRow x = some r →
        x.coupon_code = none ∨ x.coupon_code = some "" → r.coupon = none) := by
  have hcoupon1 : ∀ (c : String), c ≠ "" → couponField (some c) = some c := by
    intro c hc
    unfold couponField pyTruthyStr
    rw [if_pos (by simpa using hc)]
  have hcoupon2 : ∀ co : Option String, co = none ∨ co = some "" →
      couponField co = none := by
    intro co hco
    rcases hco with h | h <;> rw [h] <;> decide
  refine ⟨?_, ?_, ?_, ?_, ?_, ?_⟩
  · intro p r h
    rw [formatSearchRow_total h]
    exact ⟨rfl, rfl, rfl, rfl⟩
  · intro p r c h hc hne
    rw [formatSearchRow_total h]
    show couponField p.1.coupon_code = some c
    rw [hc]
    exact hcoupon1 c hne
  · intro p r h hco
    rw [formatSearchRow_total h]
    exact hcoupon2 _ hco
  · intro x r h
    rw [formatTopRow_total h]
    exact ⟨rfl, rfl, rfl, rfl⟩
  · intro x r c h hc hne
    rw [formatTopRow_total h]
    show couponField x.coupon_code = some c
    rw [hc]
    exact hcoupon1 c hne
  · intro x r h hco
    rw [formatTopRow_total h]
    exact hcoupon2 _ hco

theorem C9_passthrough_witness :
    (resNum.name = rowNum.name ∧ resNum.description = rowNum.description
      ∧ resNum.category = rowNum.category ∧ resNum.url = rowNum.click_url)
    ∧ resCoup.coupon = some "SAVE"
    ∧ resNum.coupon = none
    ∧ (topE.name = rowEmptyCoupon.name
        ∧ topE.description = rowEmptyCoupon.description
        ∧ topE.category = rowEmptyCoupon.category
        ∧ topE.url = rowEmptyCoupon.click_url)
    ∧ topCoup.coupon = some "SAVE"
    ∧ topE.coupon = none :=
  ⟨C9_passthrough.1 (rowNum, 0) resNum (by decide),
   C9_passthrough.2.1 (rowCoup, 0) resCoup "SAVE" (by decide) rfl (by decide),
   C9_passthrough.2.2.1 (rowNum, 0) resNum (by decide) (Or.inl rfl),
   C9_passthrough.2.2.2.1 rowEmptyCoupon topE (by decide),
   C9_passthrough.2.2.2.2.1 rowCoup topCoup "SAVE" (by decide) rfl (by decide),
   C9_passthrough.2.2.2.2.2 rowEmptyCoupon topE (by decide) (Or.inr rfl)⟩

theorem dollar_cast_zero (s : String) (h : s.toList.head? = some '$') :
    sqliteCastStr s = 0 := by
  rcases hs : s.toList with _ | ⟨c0, rest⟩
  · rw [hs] at h
    cases h
  · rw [hs] at h
    have hc : c0 = '$' := by simpa using h
    subst hc
    have hd : List.dropWhile isSqlSpace ('$' :: rest) = '$' :: rest := by
      rw [List.dropWhile_cons]
      simp [show isSqlSpace '$' = false from by decide]
    have hp1 : parseSignInt ('$' :: rest) = (1, '$' :: rest) := by
      unfold parseSignInt
      simp only [List.head?_cons]
      rw [if_neg (by decide : ¬ ((some '$' : Option Char) = some '-')),
          if_neg (by decide : ¬ ((some '$' : Option Char) = some '+'))]
    have ht1 : List.takeWhile Char.isDigit ('$' :: rest) = [] := by
      rw [List.takeWhile_cons]
      simp [show Char.isDigit '$' = false from by decide]
    have ht2 : List.dropWhile Char.isDigit ('$' :: rest) = '$' :: rest := by
      rw [List.dropWhile_cons]
      simp [show Char.isDigit '$' = false from by decide]
    simp only [sqliteCastStr, hs, hd, hp1, ht1, ht2, List.head?_cons]
    rw [if_neg (by decide : ¬ ((some '$' : Option Char) = some '.'))]
    rfl

/-- C10 (confirmed, implicit claim): because the `min_epc` filter compares
`CAST(epc_7day AS REAL)` — which is 0.0 for any stored text without a
numeric prefix, such as a `$`-prefixed currency string — a positive
threshold can never be met by a currency-formatted `epc_7day`, regardless
of its normalized value: no row whose stored `epc_7day` is a string
beginning with `'$'` is ever returned. -/
theorem C10_currency_never_passes_min_epc :
    ∀ (catalog : List AffRow) (d : ℤ → ℚ) (q : String) (k : ℤ)
      (c : Option String) (t : ℚ) (p : AffRow × ℚ) (s : String),
      0 < t → p ∈ searchRows catalog d ⟨q, k, some t, c⟩ →
      p.1.epc_7day = SqlVal.str s → s.toList.head? ≠ some '$' := by
  intro catalog d q k c t p s ht hp hs hdollar
  have hw := (mem_searchRows hp).2.1
  unfold passesWhere at hw
  rw [Bool.and_eq_true] at hw
  have h1 : minEpcPred p.1.epc_7day t = true := hw.1
  rw [hs] at h1
  have hle : t ≤ sqliteCastStr s := of_decide_eq_true h1
  rw [dollar_cast_zero s hdollar] at hle
  exact absurd hle (not_le.mpr ht)

theorem C10_currency_never_passes_min_epc_witness :
    ("1.50".toList.head? ≠ some '$') :=
  C10_currency_never_passes_min_epc [rowB] (fun _ => 0) "books" 5 none 1
    (rowB, 0) "1.50" (by norm_num) (by decide) (by decide)
